import Mathlib

/-!
Verification of the chat ingestion and reaction loop of a YouTube live-chat
bot (`index.js`).  The per-message pipeline (relay to a Discord webhook,
welcome of first-time chatters, banned-word moderation, command dispatch),
the polling state (`firstRun` flag and `nextPageToken` cursor), interval
selection and error backoff are embedded as pure functions; outbound
network calls are represented as an `Effect` trace, and their possible
failure by an oracle assigning each attempted call an optional thrown
error message.
-/

set_option maxHeartbeats 1000000

namespace YTBot

/-- The `discordWebhook` section of `bot.yml`. -/
structure WebhookConfig where
  enable : Bool
  url : String
  deriving DecidableEq, Repr

/-- The parts of the `bot.yml` configuration the chat loop reads. -/
structure BotConfig where
  badWords : List String
  discordWebhook : Option WebhookConfig
  deriving DecidableEq, Repr

/-- One value of the `commands` mapping: `{response, description, aliases}`
(`index.js:106-110`). -/
structure ChatCommand where
  response : String
  description : String
  aliases : List String
  deriving DecidableEq, Repr

/-- `authorDetails` of a chat item as delivered by the provider.  The
payload carries a channel id (the author's stable identifier), a display
name and an avatar url; the bot reads only `displayName` and
`profileImageUrl`. -/
structure AuthorDetails where
  channelId : String
  displayName : String
  profileImageUrl : String
  deriving DecidableEq, Repr

/-- The `snippet` part of a chat item; the bot reads `displayMessage`. -/
structure Snippet where
  displayMessage : String
  deriving DecidableEq, Repr

/-- One item of a `liveChatMessages.list` response. -/
structure ChatItem where
  authorDetails : AuthorDetails
  snippet : Snippet
  deriving DecidableEq, Repr

/-- Mutable state of the bot loop: the participants set (in insertion
order, as the JavaScript `Set` iterates), the `firstRun` flag and the poll
cursor `nextPageToken` (`index.js:129`, `index.js:317-318`). -/
structure BotState where
  participants : List String
  firstRun : Bool
  nextPageToken : Option String
  deriving DecidableEq, Repr

/-- The fields of a `liveChatMessages.list` response body the loop reads. -/
structure PollResponse where
  items : List ChatItem
  nextPageToken : Option String
  pollingIntervalMillis : Option Nat
  deriving DecidableEq, Repr

/-- An observable outbound call made during a poll: a chat reply
(`sendMessage`), a webhook POST (the `fetch` inside `sendToDiscord`), or a
rewrite of the participants file (`saveParticipants`). -/
inductive Effect where
  | sendChat (text : String)
  | webhookPost (username : String) (avatarUrl : Option String) (content : String)
  | persistParticipants (entries : List String)
  deriving DecidableEq, Repr

/-- Substring test on character lists; `pat` occurs somewhere in the
list. -/
def includesAux (pat : List Char) : List Char → Bool
  | [] => pat.isEmpty
  | c :: rest => pat.isPrefixOf (c :: rest) || includesAux pat rest

/-- JavaScript `String.prototype.includes`: whether `pat` occurs in `s` as
a contiguous substring. -/
def strIncludes (s pat : String) : Bool :=
  includesAux pat.data s.data

/-- JavaScript `String.prototype.toLowerCase` (ASCII letters, as
`Char.toLower` provides). -/
def jsToLower (s : String) : String :=
  ⟨s.data.map Char.toLower⟩

/-- Split a character list at every occurrence of the space character,
keeping empty parts. -/
def splitSpaceAux (acc : List Char) : List Char → List (List Char)
  | [] => [acc.reverse]
  | c :: rest =>
    if c = ' ' then acc.reverse :: splitSpaceAux [] rest
    else splitSpaceAux (c :: acc) rest

/-- JavaScript `String.prototype.split` with the single-space separator
`" "`: empty parts between adjacent spaces are kept. -/
def jsSplitSpace (s : String) : List String :=
  (splitSpaceAux [] s.data).map fun l => ⟨l⟩

/-- Replace the first occurrence of `pat` in a character list by `rep`. -/
def replaceFirstAux (pat rep : List Char) : List Char → List Char
  | [] => if pat.isEmpty then rep else []
  | c :: rest =>
    if pat.isPrefixOf (c :: rest) then rep ++ (c :: rest).drop pat.length
    else c :: replaceFirstAux pat rep rest

/-- JavaScript `String.prototype.replace` with a string pattern: only the
first occurrence of `pat` is replaced. -/
def replaceFirst (s pat rep : String) : String :=
  ⟨replaceFirstAux pat.data rep.data s.data⟩

/-- `formatUptime` (`index.js:300-306`): the elapsed time `now - startTime`
rendered as hours, minutes and seconds. -/
def formatUptime (now startTime : Nat) : String :=
  let diff := now - startTime
  let secs := diff / 1000 % 60
  let mins := diff / 60000 % 60
  let hours := diff / 3600000
  toString hours ++ "h " ++ toString mins ++ "m " ++ toString secs ++ "s"

/-- `sendToDiscord` (`index.js:274-291`): a single webhook POST, or nothing
at all when the webhook section is missing, disabled, or has an empty
url. -/
def sendToDiscord (config : BotConfig) (user : String) (avatar : Option String)
    (message : String) : List Effect :=
  match config.discordWebhook with
  | none => []
  | some wh =>
    if wh.enable = false || wh.url = "" then []
    else [Effect.webhookPost user avatar message]

/-- Outcome oracle for outbound calls: `none` means the call succeeds,
`some msg` means it throws an error whose message is `msg`. -/
def SendOracle : Type := Effect → Option String

/-- The oracle under which every outbound call succeeds. -/
def allOk : SendOracle := fun _ => none

/-- Attempt a list of outbound calls in order, stopping at the first one
that throws; returns the calls attempted and the thrown error, if any. -/
def runEffects (ok : SendOracle) : List Effect → List Effect × Option String
  | [] => ([], none)
  | e :: rest =>
    match ok e with
    | some msg => ([e], some msg)
    | none =>
      let r := runEffects ok rest
      (e :: r.1, r.2)

/-- Welcome reply for a first-time chatter (`index.js:356`). -/
def welcomeText (user : String) : String :=
  "👋 Welcome @" ++ user ++ " to the stream, Thanks for joining!"

/-- Warning reply of the word filter (`index.js:365`). -/
def warningText (user : String) : String :=
  "@" ++ user ++ ", please avoid bad language!"

/-- Moderation notice relayed to the webhook (`index.js:370`). -/
def banNoticeText (user message : String) : String :=
  "@" ++ user ++ " used a banned word: \"" ++ message ++ "\""

/-- Rendering of a command response template (`index.js:378-387`): the
first `{user}` and first `{uptime}` occurrence are substituted; then, when
the rendered reply still contains `{args}`, its first occurrence is
replaced by the message text minus its first space-delimited token. -/
def renderReply (response user uptimeStr message : String) : String :=
  let reply := replaceFirst (replaceFirst response "{user}" user)
    "{uptime}" uptimeStr
  if strIncludes reply "{args}" then
    let parts := jsSplitSpace message
    let args := String.intercalate " " (parts.drop 1)
    replaceFirst reply "{args}" args
  else reply

/-- Word filter and command handler for one message (`index.js:360-389`):
if the lowercased text contains a configured bad word, a warning and a
webhook notice are sent and the pipeline stops (`continue`); otherwise the
full lowercased text is looked up in the command table and, on a hit, the
rendered response is sent. -/
def modCmdRun (config : BotConfig) (commands : String → Option ChatCommand)
    (ok : SendOracle) (uptimeStr : String) (user message : String) :
    List Effect × Option String :=
  if config.badWords.any (fun w => strIncludes (jsToLower message) w) then
    runEffects ok
      (Effect.sendChat (warningText user) ::
        sendToDiscord config "Bot" none (banNoticeText user message))
  else
    match commands (jsToLower message) with
    | none => ([], none)
    | some cmdObj =>
      runEffects ok [Effect.sendChat (renderReply cmdObj.response user uptimeStr message)]

/-- First-time chatter welcome (`index.js:349-358`): when the display name
is not yet in the participants set, it is added, the set is persisted, and
the welcome reply is sent; the set is extended before the reply is
attempted. -/
def welcomeStep (ok : SendOracle) (st : BotState) (user : String) :
    BotState × List Effect × Option String :=
  if st.participants.contains user then (st, [], none)
  else
    let ps := st.participants ++ [user]
    let sendRes := runEffects ok [Effect.sendChat (welcomeText user)]
    ({ st with participants := ps },
      Effect.persistParticipants ps :: sendRes.1, sendRes.2)

/-- Processing of a single chat item (the body of the `for` loop,
`index.js:340-389`): relay the message to Discord, welcome a first-time
chatter (keyed on the display name), then run the word filter and command
handler.  A thrown call aborts the remainder, as the loop body runs inside
the poll's `try`. -/
def processItem (config : BotConfig) (commands : String → Option ChatCommand)
    (ok : SendOracle) (uptimeStr : String) (st : BotState) (item : ChatItem) :
    BotState × List Effect × Option String :=
  let user := item.authorDetails.displayName
  let avatar := item.authorDetails.profileImageUrl
  let message := item.snippet.displayMessage
  let relay := runEffects ok (sendToDiscord config user (some avatar) message)
  match relay.2 with
  | some e => (st, relay.1, some e)
  | none =>
    match welcomeStep ok st user with
    | (st1, effs1, some e) => (st1, relay.1 ++ effs1, some e)
    | (st1, effs1, none) =>
      let mc := modCmdRun config commands ok uptimeStr user message
      (st1, relay.1 ++ effs1 ++ mc.1, mc.2)

/-- Sequential processing of a poll batch, in arrival order; the first
thrown error aborts the remaining items. -/
def processItems (config : BotConfig) (commands : String → Option ChatCommand)
    (ok : SendOracle) (uptimeStr : String) :
    BotState → List ChatItem → BotState × List Effect × Option String
  | st, [] => (st, [], none)
  | st, item :: rest =>
    match processItem config commands ok uptimeStr st item with
    | (st1, effs, some e) => (st1, effs, some e)
    | (st1, effs, none) =>
      let r := processItems config commands ok uptimeStr st1 rest
      (r.1, effs ++ r.2.1, r.2.2)

/-- `res.data.pollingIntervalMillis || 5000` (`index.js:396`): an absent or
zero suggestion falls back to 5000 ms. -/
def suggestedInterval : Option Nat → Nat
  | none => 5000
  | some v => if v = 0 then 5000 else v

/-- Backoff delay after a caught polling error (`index.js:401`). -/
def backoffFor (errMsg : String) : Nat :=
  if strIncludes errMsg "quota" then 60000 else 10000

/-- Result of one `pollChat` invocation: the state afterwards, the
outbound calls attempted, the caught error (if any) and the delay passed
to `setTimeout` for the next poll. -/
structure PollOutcome where
  state : BotState
  effects : List Effect
  caught : Option String
  nextDelay : Nat
  deriving DecidableEq, Repr

/-- One iteration of `pollChat` (`index.js:331-404`).  `res` is the outcome
of the `liveChatMessages.list` call; on the first run the returned items
are skipped; on success the cursor and first-run flag are updated and the
suggested interval used; any thrown error is caught and converted into a
backoff reschedule, leaving cursor and flag untouched. -/
def pollChat (config : BotConfig) (commands : String → Option ChatCommand)
    (ok : SendOracle) (uptimeStr : String) (st : BotState)
    (res : Except String PollResponse) : PollOutcome :=
  match res with
  | .error e => ⟨st, [], some e, backoffFor e⟩
  | .ok r =>
    match (if st.firstRun then (st, [], none)
           else processItems config commands ok uptimeStr st r.items) with
    | (st1, effs, some e) => ⟨st1, effs, some e, backoffFor e⟩
    | (st1, effs, none) =>
      ⟨{ st1 with firstRun := false, nextPageToken := r.nextPageToken },
        effs, none, suggestedInterval r.pollingIntervalMillis⟩

/-! Concrete fixtures used by the counterexamples and witnesses. -/

/-- A configuration with no bad words and an enabled webhook. -/
def hookOn : BotConfig := ⟨[], some ⟨true, "https://hook"⟩⟩

/-- A configuration whose single banned word contains uppercase letters. -/
def cfgBadUpper : BotConfig := ⟨["BAD"], some ⟨true, "https://hook"⟩⟩

/-- An empty command table. -/
def noCmds : String → Option ChatCommand := fun _ => none

/-- A table with a single shoutout command whose template uses `{args}`. -/
def soCmds : String → Option ChatCommand := fun s =>
  if s = "!so" then some ⟨"Shoutout to {args}", "", []⟩ else none

/-- A table with a single help command. -/
def helpCmds : String → Option ChatCommand := fun s =>
  if s = "!help" then some ⟨"Commands: !help", "", []⟩ else none

/-- A table whose single command repeats each placeholder twice. -/
def dupCmds : String → Option ChatCommand := fun s =>
  if s = "!dup" then some ⟨"{user}{user}{uptime}{uptime}", "", []⟩ else none

/-- An oracle under which every webhook POST throws and every other call
succeeds. -/
def okFailHook : SendOracle := fun e =>
  match e with
  | .webhookPost _ _ _ => some "network down"
  | _ => none

/-- Steady state after the first poll: empty participants set. -/
def st0 : BotState := ⟨[], false, none⟩

/-- Steady state whose participants set already holds the display name
`"Alice"`. -/
def stAlice : BotState := ⟨["Alice"], false, none⟩

/-- A chat item from a first-time chatter whose text is a command. -/
def itm1 : ChatItem := ⟨⟨"UCnew", "newuser", "ava1"⟩, ⟨"!help"⟩⟩

/-- A second chat item from another first-time chatter. -/
def itm2 : ChatItem := ⟨⟨"UCb", "second", "ava2"⟩, ⟨"!help"⟩⟩

/-- A chat item whose author channel id is new while the display name
`"Alice"` has been seen before. -/
def itmAliceNewId : ChatItem := ⟨⟨"UC999", "Alice", "ava"⟩, ⟨"hello"⟩⟩

/-! Helper lemmas. -/

/-- Under the all-success oracle a batch of calls is attempted in full and
throws nothing. -/
theorem runEffects_allOk (l : List Effect) : runEffects allOk l = (l, none) := by
  induction l with
  | nil => rfl
  | cons e rest ih => simp [runEffects, allOk, ih]

/-- The word filter and command handler throw nothing under the
all-success oracle. -/
theorem modCmdRun_allOk_snd (config : BotConfig)
    (commands : String → Option ChatCommand) (uptimeStr user message : String) :
    (modCmdRun config commands allOk uptimeStr user message).2 = none := by
  unfold modCmdRun
  split
  · simp [runEffects_allOk]
  · split
    · rfl
    · simp [runEffects_allOk]

/-- The welcome step never fails under the all-success oracle, and never
touches the `firstRun` flag or the poll cursor under any oracle. -/
theorem welcomeStep_allOk_snd (st : BotState) (user : String) :
    (welcomeStep allOk st user).2.2 = none := by
  unfold welcomeStep
  split
  · rfl
  · simp [runEffects_allOk]

/-- The welcome step never touches the `firstRun` flag or the poll cursor,
whatever the oracle does. -/
theorem welcomeStep_preserves (ok : SendOracle) (st : BotState) (user : String) :
    (welcomeStep ok st user).1.firstRun = st.firstRun ∧
      (welcomeStep ok st user).1.nextPageToken = st.nextPageToken := by
  unfold welcomeStep
  split
  · exact ⟨rfl, rfl⟩
  · exact ⟨rfl, rfl⟩

/-- Processing one item throws nothing under the all-success oracle. -/
theorem processItem_allOk_snd (config : BotConfig)
    (commands : String → Option ChatCommand) (uptimeStr : String)
    (st : BotState) (item : ChatItem) :
    (processItem config commands allOk uptimeStr st item).2.2 = none := by
  unfold processItem
  dsimp only
  rw [runEffects_allOk]
  rcases hw : welcomeStep allOk st item.authorDetails.displayName with ⟨st1, effs1, werr⟩
  have h : werr = none := by
    have h2 := welcomeStep_allOk_snd st item.authorDetails.displayName
    rw [hw] at h2
    exact h2
  subst h
  simp [modCmdRun_allOk_snd]

/-- Processing a batch throws nothing under the all-success oracle. -/
theorem processItems_allOk_snd (config : BotConfig)
    (commands : String → Option ChatCommand) (uptimeStr : String)
    (st : BotState) (items : List ChatItem) :
    (processItems config commands allOk uptimeStr st items).2.2 = none := by
  induction items generalizing st with
  | nil => rfl
  | cons item rest ih =>
    unfold processItems
    rcases hp : processItem config commands allOk uptimeStr st item with ⟨st1, effs, err⟩
    have h := processItem_allOk_snd config commands uptimeStr st item
    rw [hp] at h
    have herr : err = none := h
    subst herr
    simp [ih]

/-- Processing one item never touches the `firstRun` flag or the poll
cursor, whatever the oracle does. -/
theorem processItem_preserves (config : BotConfig)
    (commands : String → Option ChatCommand) (ok : SendOracle)
    (uptimeStr : String) (st : BotState) (item : ChatItem) :
    (processItem config commands ok uptimeStr st item).1.firstRun = st.firstRun ∧
      (processItem config commands ok uptimeStr st item).1.nextPageToken = st.nextPageToken := by
  unfold processItem
  dsimp only
  rcases hr : runEffects ok (sendToDiscord config item.authorDetails.displayName
      (some item.authorDetails.profileImageUrl) item.snippet.displayMessage) with ⟨reffs, rerr⟩
  cases rerr with
  | some e => exact ⟨rfl, rfl⟩
  | none =>
    have h := welcomeStep_preserves ok st item.authorDetails.displayName
    rcases hw : welcomeStep ok st item.authorDetails.displayName with ⟨st1, effs1, werr⟩
    rw [hw] at h
    cases werr with
    | some e => exact h
    | none => exact h

/-- Processing a batch never touches the `firstRun` flag or the poll
cursor, whatever the oracle does. -/
theorem processItems_preserves (config : BotConfig)
    (commands : String → Option ChatCommand) (ok : SendOracle)
    (uptimeStr : String) (st : BotState) (items : List ChatItem) :
    (processItems config commands ok uptimeStr st items).1.firstRun = st.firstRun ∧
      (processItems config commands ok uptimeStr st items).1.nextPageToken = st.nextPageToken := by
  induction items generalizing st with
  | nil => exact ⟨rfl, rfl⟩
  | cons item rest ih =>
    unfold processItems
    have h := processItem_preserves config commands ok uptimeStr st item
    rcases hp : processItem config commands ok uptimeStr st item with ⟨st1, effs, err⟩
    rw [hp] at h
    cases err with
    | some e => exact h
    | none =>
      have h2 := ih st1
      exact ⟨h2.1.trans h.1, h2.2.trans h.2⟩

/-- A list is a prefix of itself extended by any tail. -/
theorem isPrefixOf_append_self (p t : List Char) : p.isPrefixOf (p ++ t) = true := by
  induction p with
  | nil => simp [List.isPrefixOf]
  | cons c cs ih => simp [List.isPrefixOf, ih]

/-- Replacing the first occurrence of a nonempty pattern that sits at the
head of the list substitutes it and leaves the tail untouched. -/
theorem replaceFirstAux_head (p rep tail : List Char) (hp : p ≠ []) :
    replaceFirstAux p rep (p ++ tail) = rep ++ tail := by
  cases p with
  | nil => exact absurd rfl hp
  | cons c cs =>
    rw [List.cons_append]
    unfold replaceFirstAux
    rw [if_pos]
    · rw [← List.cons_append, List.drop_left]
    · rw [← List.cons_append]
      exact isPrefixOf_append_self (c :: cs) tail

/-! Claim theorems. -/

/-- Claim C6: every error raised during a poll is caught and turned into a
reschedule; the backoff delay is 60000 ms when the error message contains
the substring "quota" and 10000 ms otherwise, for the listing error and
for any error thrown while processing the batch alike. -/
theorem c6_backoff_selection (config : BotConfig)
    (commands : String → Option ChatCommand) (ok : SendOracle)
    (uptimeStr : String) (st : BotState) (res : Except String PollResponse)
    (e : String) (h : (pollChat config commands ok uptimeStr st res).caught = some e) :
    (pollChat config commands ok uptimeStr st res).nextDelay
      = if strIncludes e "quota" = true then 60000 else 10000 := by
  cases res with
  | error e2 =>
    have he : e2 = e := by simpa [pollChat] using h
    subst he
    simp [pollChat, backoffFor]
  | ok r =>
    cases hfr : st.firstRun with
    | true =>
      exfalso
      simp [pollChat, hfr] at h
    | false =>
      rcases hp : processItems config commands ok uptimeStr st r.items with ⟨st1, effs, err⟩
      cases err with
      | some e2 =>
        have he : e2 = e := by simpa [pollChat, hfr, hp] using h
        subst he
        simp [pollChat, hfr, hp, backoffFor]
      | none =>
        exfalso
        simp [pollChat, hfr, hp] at h

/-- Witness for C6: a quota-shaped listing error yields the long backoff. -/
theorem c6_witness :
    (pollChat hookOn noCmds allOk "0h 0m 0s" st0 (.error "quota exceeded")).nextDelay
      = 60000 := by
  have h := c6_backoff_selection hookOn noCmds allOk "0h 0m 0s" st0
    (.error "quota exceeded") "quota exceeded" rfl
  exact h.trans (by decide)

/-- Claim C7: the first successful poll produces no outbound call and no
caught error whatever the returned items are; only the first-run flag and
the cursor change, and the next poll is scheduled from the suggested
interval. -/
theorem c7_first_run_discards (config : BotConfig)
    (commands : String → Option ChatCommand) (ok : SendOracle)
    (uptimeStr : String) (st : BotState) (r : PollResponse)
    (hfr : st.firstRun = true) :
    pollChat config commands ok uptimeStr st (.ok r)
      = ⟨{ st with firstRun := false, nextPageToken := r.nextPageToken },
          [], none, suggestedInterval r.pollingIntervalMillis⟩ := by
  simp [pollChat, hfr]

/-- Witness for C7: a first poll returning two command messages from new
chatters has no effect beyond flag and cursor. -/
theorem c7_witness :
    pollChat hookOn helpCmds allOk "0h 0m 0s" ⟨[], true, none⟩
        (.ok ⟨[itm1, itm2], some "tokA", some 1234⟩)
      = ⟨⟨[], false, some "tokA"⟩, [], none, 1234⟩ := by
  have h := c7_first_run_discards hookOn helpCmds allOk "0h 0m 0s" ⟨[], true, none⟩
    ⟨[itm1, itm2], some "tokA", some 1234⟩ rfl
  exact h.trans (by decide)

/-- Claim C8: the `{uptime}` value renders the elapsed milliseconds as
hours, minutes and seconds, with seconds the floor of elapsed/1000 modulo
60, minutes the floor of elapsed/60000 modulo 60, and hours the floor of
elapsed/3600000; in particular 3725000 ms renders as "1h 2m 5s". -/
theorem c8_uptime_format (startTime elapsed : Nat) :
    formatUptime (startTime + elapsed) startTime
      = toString (elapsed / 3600000) ++ "h " ++ toString (elapsed / 60000 % 60)
        ++ "m " ++ toString (elapsed / 1000 % 60) ++ "s"
    ∧ formatUptime 3725000 0 = "1h 2m 5s" := by
  constructor
  · simp [formatUptime, Nat.add_sub_cancel_left]
  · decide

/-- Claim C9: whenever a poll catches an error — a failed listing call or
a throw while processing items — the first-run flag and the cursor are
left unchanged. -/
theorem c9_cursor_unchanged_on_error (config : BotConfig)
    (commands : String → Option ChatCommand) (ok : SendOracle)
    (uptimeStr : String) (st : BotState) (res : Except String PollResponse)
    (e : String) (h : (pollChat config commands ok uptimeStr st res).caught = some e) :
    (pollChat config commands ok uptimeStr st res).state.firstRun = st.firstRun
      ∧ (pollChat config commands ok uptimeStr st res).state.nextPageToken
          = st.nextPageToken := by
  cases res with
  | error e2 => exact ⟨rfl, rfl⟩
  | ok r =>
    cases hfr : st.firstRun with
    | true =>
      exfalso
      simp [pollChat, hfr] at h
    | false =>
      rcases hp : processItems config commands ok uptimeStr st r.items with ⟨st1, effs, err⟩
      have hpr := processItems_preserves config commands ok uptimeStr st r.items
      rw [hp] at hpr
      cases err with
      | some e2 => simpa [pollChat, hfr, hp] using hpr
      | none =>
        exfalso
        simp [pollChat, hfr, hp] at h

/-- Witness for C9: a relay throw in mid-batch leaves flag and cursor of
the steady state untouched. -/
theorem c9_witness :
    (pollChat hookOn helpCmds okFailHook "0h 0m 0s" st0
        (.ok ⟨[itm1, itm2], some "tok2", some 2000⟩)).state.firstRun = st0.firstRun
    ∧ (pollChat hookOn helpCmds okFailHook "0h 0m 0s" st0
        (.ok ⟨[itm1, itm2], some "tok2", some 2000⟩)).state.nextPageToken
        = st0.nextPageToken := by
  exact c9_cursor_unchanged_on_error hookOn helpCmds okFailHook "0h 0m 0s" st0
    (.ok ⟨[itm1, itm2], some "tok2", some 2000⟩) "network down" (by decide)

/-- Claim C10: only the first occurrence of `{user}` and the first
occurrence of `{uptime}` in a response template are substituted — a
pattern sitting at the head of the text is replaced and the whole tail is
kept verbatim, occurrences of the pattern included — so the template
`"{user}{user}{uptime}{uptime}"` renders with its second occurrences left
in place. -/
theorem c10_first_occurrence_only :
    (∀ rep tail : List Char,
      replaceFirstAux "{user}".data rep ("{user}".data ++ tail) = rep ++ tail)
    ∧ (∀ rep tail : List Char,
      replaceFirstAux "{uptime}".data rep ("{uptime}".data ++ tail) = rep ++ tail)
    ∧ modCmdRun hookOn dupCmds allOk "1h 2m 3s" "Alice" "!dup"
        = ([Effect.sendChat "Alice{user}1h 2m 3s{uptime}"], none) := by
  refine ⟨?_, ?_, by decide⟩
  · intro rep tail
    exact replaceFirstAux_head _ _ _ (by decide)
  · intro rep tail
    exact replaceFirstAux_head _ _ _ (by decide)

/-- Claim C1 counterexample: in a two-message batch whose first author is
new and whose text is a command, a failing relay call leaves only that
one attempted webhook POST: no welcome (the participants set is
unchanged, nothing persisted), no command reply, the second message never
processed — the claim's "failure does not prevent the other steps" is
false at this input. -/
theorem c1_counterexample :
    pollChat hookOn helpCmds okFailHook "0h 0m 0s" st0
        (.ok ⟨[itm1, itm2], some "tok2", some 2000⟩)
      = ⟨st0, [Effect.webhookPost "newuser" (some "ava1") "!help"],
          some "network down", 10000⟩
    ∧ st0.participants.contains "newuser" = false
    ∧ helpCmds "!help" ≠ none := by
  refine ⟨by decide, by decide, by decide⟩

/-- Claim C1 (amended): the relay to the NotificationRelay is the first
call attempted for a message, but when it throws, the welcome check,
moderation check and command dispatch of that message are skipped, no
later message of the batch is processed, and the poller reschedules with
the error backoff. -/
theorem c1_relay_failure_aborts (config : BotConfig)
    (commands : String → Option ChatCommand) (ok : SendOracle)
    (uptimeStr : String) (st : BotState) (item : ChatItem)
    (rest : List ChatItem) (wh : WebhookConfig) (e : String)
    (tok : Option String) (pim : Option Nat)
    (hwh : config.discordWebhook = some wh) (hen : wh.enable = true)
    (hurl : wh.url ≠ "")
    (hfail : ok (Effect.webhookPost item.authorDetails.displayName
        (some item.authorDetails.profileImageUrl) item.snippet.displayMessage)
      = some e)
    (hfr : st.firstRun = false) :
    processItem config commands ok uptimeStr st item
        = (st, [Effect.webhookPost item.authorDetails.displayName
            (some item.authorDetails.profileImageUrl) item.snippet.displayMessage],
            some e)
    ∧ pollChat config commands ok uptimeStr st (.ok ⟨item :: rest, tok, pim⟩)
        = ⟨st, [Effect.webhookPost item.authorDetails.displayName
            (some item.authorDetails.profileImageUrl) item.snippet.displayMessage],
            some e, backoffFor e⟩ := by
  have hsend : sendToDiscord config item.authorDetails.displayName
      (some item.authorDetails.profileImageUrl) item.snippet.displayMessage
      = [Effect.webhookPost item.authorDetails.displayName
          (some item.authorDetails.profileImageUrl) item.snippet.displayMessage] := by
    simp [sendToDiscord, hwh, hen, hurl]
  have hpi : processItem config commands ok uptimeStr st item
      = (st, [Effect.webhookPost item.authorDetails.displayName
          (some item.authorDetails.profileImageUrl) item.snippet.displayMessage],
          some e) := by
    unfold processItem
    dsimp only
    rw [hsend]
    simp [runEffects, hfail]
  refine ⟨hpi, ?_⟩
  simp [pollChat, hfr, processItems, hpi]

/-- Witness for C1 (amended): the failing-webhook oracle aborts a
concrete item at the relay step. -/
theorem c1_witness :
    processItem hookOn helpCmds okFailHook "0h 0m 0s" st0 itm1
      = (st0, [Effect.webhookPost "newuser" (some "ava1") "!help"],
          some "network down") := by
  have h := (c1_relay_failure_aborts hookOn helpCmds okFailHook "0h 0m 0s" st0 itm1
    [] ⟨true, "https://hook"⟩ "network down" none none rfl rfl (by decide) rfl rfl).1
  exact h.trans (by decide)

/-- Claim C2 counterexample: the author's channel id "UC999" is not in the
participant store, yet nothing is inserted or persisted and no welcome is
sent, because the store is keyed on the display name "Alice", which has
been seen — the claim's authorId-based welcome condition is false at this
input. -/
theorem c2_counterexample :
    stAlice.participants.contains "UC999" = false
    ∧ itmAliceNewId.authorDetails.channelId = "UC999"
    ∧ processItem hookOn noCmds allOk "0h 0m 0s" stAlice itmAliceNewId
        = (stAlice, [Effect.webhookPost "Alice" (some "ava") "hello"], none) := by
  refine ⟨by decide, by decide, by decide⟩

/-- Claim C2 (amended): the welcome check is keyed on the display name:
for a display name not yet in the store, the name is appended, the store
persisted, exactly one welcome reply interpolating the display name sent,
and processing continues to the word filter and command dispatch for the
same message; for a display name already in the store no welcome is
produced and the store is untouched. -/
theorem c2_welcome_keyed_on_display_name (config : BotConfig)
    (commands : String → Option ChatCommand) (uptimeStr : String)
    (st : BotState) (item : ChatItem)
    (hnew : st.participants.contains item.authorDetails.displayName = false) :
    processItem config commands allOk uptimeStr st item
        = ({ st with participants := st.participants ++ [item.authorDetails.displayName] },
            sendToDiscord config item.authorDetails.displayName
                (some item.authorDetails.profileImageUrl) item.snippet.displayMessage
              ++ Effect.persistParticipants
                    (st.participants ++ [item.authorDetails.displayName])
                :: Effect.sendChat (welcomeText item.authorDetails.displayName)
                :: (modCmdRun config commands allOk uptimeStr
                    item.authorDetails.displayName item.snippet.displayMessage).1,
            none)
    ∧ ∀ st2 : BotState,
        st2.participants.contains item.authorDetails.displayName = true →
        processItem config commands allOk uptimeStr st2 item
          = (st2,
              sendToDiscord config item.authorDetails.displayName
                  (some item.authorDetails.profileImageUrl) item.snippet.displayMessage
                ++ (modCmdRun config commands allOk uptimeStr
                    item.authorDetails.displayName item.snippet.displayMessage).1,
              none) := by
  constructor
  · have hnew2 : item.authorDetails.displayName ∉ st.participants := by
      simpa using hnew
    simp [processItem, welcomeStep, hnew2, runEffects_allOk, modCmdRun_allOk_snd]
  · intro st2 h2
    have h2m : item.authorDetails.displayName ∈ st2.participants := by
      simpa using h2
    simp [processItem, welcomeStep, h2m, runEffects_allOk, modCmdRun_allOk_snd]

/-- Witness for C2 (amended): a first-time chatter is welcomed once and
the command of the same message still runs. -/
theorem c2_witness :
    processItem hookOn helpCmds allOk "0h 0m 0s" st0 itm1
      = (⟨["newuser"], false, none⟩,
          [Effect.webhookPost "newuser" (some "ava1") "!help",
            Effect.persistParticipants ["newuser"],
            Effect.sendChat (welcomeText "newuser"),
            Effect.sendChat "Commands: !help"], none) := by
  have h := (c2_welcome_keyed_on_display_name hookOn helpCmds "0h 0m 0s" st0 itm1
    (by decide)).1
  exact h.trans (by decide)

/-- Claim C3 counterexample: "!so alice" is the trigger "!so" plus
trailing text and the command's template contains `{args}`, yet no
command reply is produced — the claim's "in which case the command
matches" is false at this input. -/
theorem c3_counterexample :
    soCmds "!so" = some ⟨"Shoutout to {args}", "", []⟩
    ∧ strIncludes "Shoutout to {args}" "{args}" = true
    ∧ modCmdRun hookOn soCmds allOk "0h 0m 0s" "viewer" "!so alice"
        = ([], none) := by
  refine ⟨by decide, by decide, by decide⟩

/-- Claim C3 (amended): command dispatch looks up the full lowercased
text as an exact key; a trigger-plus-trailing-text message never matches,
whether or not the template contains `{args}`; on an exact match the
rendered reply substitutes `{args}` (when present after the `{user}` and
`{uptime}` substitutions) by the message minus its first
space-delimited token — empty for a single-token message. -/
theorem c3_exact_full_text_lookup (config : BotConfig)
    (commands : String → Option ChatCommand) (uptimeStr user message : String)
    (hmod : config.badWords.any (fun w => strIncludes (jsToLower message) w) = false) :
    (commands (jsToLower message) = none →
      modCmdRun config commands allOk uptimeStr user message = ([], none))
    ∧ (∀ cmdObj : ChatCommand, commands (jsToLower message) = some cmdObj →
        modCmdRun config commands allOk uptimeStr user message
          = ([Effect.sendChat (renderReply cmdObj.response user uptimeStr message)],
              none))
    ∧ modCmdRun hookOn soCmds allOk uptimeStr user "!so alice" = ([], none)
    ∧ modCmdRun hookOn soCmds allOk uptimeStr user "!so"
        = ([Effect.sendChat "Shoutout to "], none) := by
  refine ⟨?_, ?_, ?_, ?_⟩
  · intro hc
    simp [modCmdRun, hmod, hc]
  · intro cmdObj hc
    simp [modCmdRun, hmod, hc, runEffects_allOk]
  · rfl
  · rfl

/-- Witness for C3 (amended): a message matching no key yields no
reply. -/
theorem c3_witness :
    modCmdRun hookOn soCmds allOk "0h 0m 0s" "viewer" "!nope" = ([], none) := by
  exact (c3_exact_full_text_lookup hookOn soCmds "0h 0m 0s" "viewer" "!nope"
    (by decide)).1 (by decide)

/-- Claim C4 counterexample: the scheduled delay equals a nonzero
suggestion verbatim (1 ms stays 1 ms) while a zero suggestion becomes
5000 ms, so no constant minimum M with delay = max(suggestion, M) and
5000 on a missing suggestion exists — the claim's max-clamp form is
false. -/
theorem c4_counterexample :
    suggestedInterval (some 1) = 1
    ∧ suggestedInterval (some 0) = 5000
    ∧ ¬ ∃ m : Nat, (∀ v : Nat, suggestedInterval (some v) = max v m)
        ∧ suggestedInterval none = 5000 := by
  refine ⟨rfl, rfl, ?_⟩
  rintro ⟨m, hv, -⟩
  have h0 := hv 0
  have h1 := hv 1
  simp [suggestedInterval] at h0 h1
  omega

/-- Claim C4 (amended): after a successful poll the next delay is the
provider's suggestion taken verbatim when present and nonzero — no
minimum is applied — and 5000 ms when the suggestion is absent or
zero. -/
theorem c4_no_minimum_clamp (config : BotConfig)
    (commands : String → Option ChatCommand) (uptimeStr : String)
    (st : BotState) (r : PollResponse) :
    (pollChat config commands allOk uptimeStr st (.ok r)).nextDelay
        = suggestedInterval r.pollingIntervalMillis
    ∧ (∀ v : Nat, v ≠ 0 → suggestedInterval (some v) = v)
    ∧ suggestedInterval (some 0) = 5000
    ∧ suggestedInterval none = 5000 := by
  refine ⟨?_, ?_, rfl, rfl⟩
  · cases hfr : st.firstRun with
    | true => simp [pollChat, hfr]
    | false =>
      rcases hp : processItems config commands allOk uptimeStr st r.items
        with ⟨st1, effs, err⟩
      have h := processItems_allOk_snd config commands uptimeStr st r.items
      rw [hp] at h
      have herr : err = none := h
      subst herr
      simp [pollChat, hfr, hp]
  · intro v hv
    simp [suggestedInterval, hv]

/-- Witness for C4 (amended): a 1 ms suggestion is used verbatim. -/
theorem c4_witness :
    (pollChat hookOn noCmds allOk "0h 0m 0s" st0 (.ok ⟨[], none, some 1⟩)).nextDelay = 1
    ∧ suggestedInterval (some 7) = 7 := by
  have h := c4_no_minimum_clamp hookOn noCmds "0h 0m 0s" st0 ⟨[], none, some 1⟩
  exact ⟨h.1.trans (by decide), h.2.1 7 (by decide)⟩

/-- Claim C5 counterexample: the message "this is BAD" contains the
configured banned word "BAD" case-insensitively, yet no warning, no
notice and no reply at all is produced, because the code lowercases only
the message and compares the configured word verbatim — the claim's
case-insensitive-match condition is false at this input. -/
theorem c5_counterexample :
    ("BAD" ∈ cfgBadUpper.badWords)
    ∧ strIncludes (jsToLower "this is BAD") (jsToLower "BAD") = true
    ∧ modCmdRun cfgBadUpper noCmds allOk "0h 0m 0s" "viewer" "this is BAD"
        = ([], none) := by
  refine ⟨by decide, by decide, by decide⟩

/-- Claim C5 (amended): for a message whose lowercased text contains a
configured banned word verbatim as a substring (case-insensitive on the
message side only), a warning reply and a webhook notice quoting the
text are produced and nothing else — in particular no command reply,
whatever the command table holds. -/
theorem c5_moderation_verbatim_word (config : BotConfig)
    (commands : String → Option ChatCommand) (uptimeStr user message w : String)
    (wh : WebhookConfig)
    (hw : w ∈ config.badWords) (hc : strIncludes (jsToLower message) w = true)
    (hwh : config.discordWebhook = some wh) (hen : wh.enable = true)
    (hurl : wh.url ≠ "") :
    modCmdRun config commands allOk uptimeStr user message
      = ([Effect.sendChat (warningText user),
          Effect.webhookPost "Bot" none (banNoticeText user message)], none) := by
  have hany : config.badWords.any (fun x => strIncludes (jsToLower message) x) = true :=
    List.any_eq_true.mpr ⟨w, hw, hc⟩
  simp [modCmdRun, hany, sendToDiscord, hwh, hen, hurl, runEffects_allOk]

/-- Witness for C5 (amended): a lowercase-configured banned word inside
an uppercase message is moderated even when the text is near a command
key. -/
theorem c5_witness :
    modCmdRun ⟨["bad"], some ⟨true, "https://hook"⟩⟩ soCmds allOk "0h 0m 0s"
        "viewer" "this is BAD"
      = ([Effect.sendChat (warningText "viewer"),
          Effect.webhookPost "Bot" none (banNoticeText "viewer" "this is BAD")],
          none) := by
  exact c5_moderation_verbatim_word ⟨["bad"], some ⟨true, "https://hook"⟩⟩ soCmds
    "0h 0m 0s" "viewer" "this is BAD" "bad" ⟨true, "https://hook"⟩
    (by decide) (by decide) rfl rfl (by decide)

end YTBot
